import Mathlib

/-!
Verification of the camera HAL control core: a shallow embedding of
`MessageQueue.h`, `ControlThread.cpp` and the `CameraDriver` buffer-pool
code, together with proofs about the embedded definitions.

Conventions:
* Android `status_t` values are modelled by the inductive `Status`.
* C `int` fields that can be negative are modelled by `Int`; indices and
  counters that the code keeps non-negative by construction stay `Int`
  when the source declares them `int`, so that bounds are real theorems.
* Hardware (V4L2 ioctl) behaviour is abstracted: `VIDIOC_QBUF` succeeds
  exactly when the index is a valid pool index not already queued, and
  `VIDIOC_DQBUF` returns the oldest queued index, failing when none is
  queued.  Driver sub-calls whose results the control code consumes are
  threaded as explicit parameters where the claim does not depend on the
  concrete device.
-/

namespace CameraHAL

/-- Android `status_t` values used by the sources. -/
inductive Status where
  | noError          -- NO_ERROR (0)
  | unknownError     -- UNKNOWN_ERROR
  | badValue         -- BAD_VALUE
  | invalidOp        -- INVALID_OPERATION
  | deadObject       -- DEAD_OBJECT
  | wouldBlock       -- WOULD_BLOCK
  deriving DecidableEq, Repr

/-! ## CameraWindow validation (`ControlThread::verifyCameraWindow`) -/

/-- A focus/metering window as scanned from the parameter string
(`CameraWindow` in the source, all fields C `int`). -/
structure CameraWindow where
  x_left   : Int
  y_top    : Int
  x_right  : Int
  y_bottom : Int
  weight   : Int
  deriving DecidableEq, Repr

/-- `ControlThread::verifyCameraWindow`, translated clause by clause. -/
def verifyCameraWindow (win : CameraWindow) : Bool :=
  if win.x_right ≤ win.x_left ∨ win.y_bottom ≤ win.y_top then false
  else if win.y_top < -1000 ∨ win.y_top > 1000 then false
  else if win.y_bottom < -1000 ∨ win.y_bottom > 1000 then false
  else if win.x_right < -1000 ∨ win.x_right > 1000 then false
  else if win.x_left < -1000 ∨ win.x_left > 1000 then false
  else if win.weight < 1 ∨ win.weight > 1000 then false
  else true

/-- C10: `verifyCameraWindow` accepts a window iff `x_right > x_left`,
`y_bottom > y_top`, all four coordinates lie in `[-1000, 1000]` and the
weight lies in `[1, 1000]`; in particular `(0,0,100,100,10)` is accepted
and `(100,0,50,100,10)` is rejected. -/
theorem verifyCameraWindow_iff :
    (∀ win : CameraWindow,
      verifyCameraWindow win = true ↔
        (win.x_left < win.x_right ∧ win.y_top < win.y_bottom ∧
         -1000 ≤ win.x_left ∧ win.x_left ≤ 1000 ∧
         -1000 ≤ win.x_right ∧ win.x_right ≤ 1000 ∧
         -1000 ≤ win.y_top ∧ win.y_top ≤ 1000 ∧
         -1000 ≤ win.y_bottom ∧ win.y_bottom ≤ 1000 ∧
         1 ≤ win.weight ∧ win.weight ≤ 1000)) ∧
    verifyCameraWindow ⟨0, 0, 100, 100, 10⟩ = true ∧
    verifyCameraWindow ⟨100, 0, 50, 100, 10⟩ = false := by
  refine ⟨fun win => ?_, by decide, by decide⟩
  unfold verifyCameraWindow
  split_ifs with h1 h2 h3 h4 h5 h6 <;>
    constructor <;> intro h <;> first | omega | simp_all

/-! ## MessageQueue (`MessageQueue.h`)

The queue stores messages in `mList` with the *front* holding the most
recently pushed message (`send` does `push_front`) and `receive` taking
from the *back* (`--mList.end()`).  Reply slots are an array of
`status_t` indexed by message id; a sender that requested a reply spins
on `WOULD_BLOCK` and returns the slot's value once `reply` stores one.
The C++ sentinel `replyId == -1` is modelled by `Option`. -/

/-- A queued message: its id (the discriminant used by `remove`) and an
abstract payload. -/
structure Msg where
  id      : Nat
  payload : Nat
  deriving DecidableEq, Repr

/-- State of a `MessageQueue` instance. -/
structure MessageQueue where
  mList        : List Msg
  mNumReply    : Nat
  mReplyStatus : Nat → Status

/-- What a call to `send` does from the caller's point of view: return
immediately with a status, or block until the given reply slot is
resolved. -/
inductive SendOutcome where
  | done (s : Status)
  | waitsOn (replyId : Nat)
  deriving DecidableEq, Repr

/-- `MessageQueue::send`: misuse check, `push_front`, and arming of the
reply slot with `WOULD_BLOCK` when a reply was requested. -/
def MessageQueue.send (q : MessageQueue) (msg : Msg) (replyId : Option Nat) :
    MessageQueue × SendOutcome :=
  match replyId with
  | some r =>
      if q.mNumReply = 0 then
        (q, .done .badValue)
      else
        ({ q with mList := msg :: q.mList,
                  mReplyStatus := Function.update q.mReplyStatus r .wouldBlock },
         .waitsOn r)
  | none => ({ q with mList := msg :: q.mList }, .done .noError)

/-- `MessageQueue::receive`: blocks while empty (modelled as `none`),
otherwise removes and returns the message at the back of the list. -/
def MessageQueue.receive (q : MessageQueue) : Option (Msg × MessageQueue) :=
  match q.mList.getLast? with
  | none => none
  | some m => some (m, { q with mList := q.mList.dropLast })

/-- `MessageQueue::reply`: store the status in the slot (and wake the
waiter, who then reads the slot). -/
def MessageQueue.reply (q : MessageQueue) (replyId : Nat) (s : Status) :
    MessageQueue :=
  { q with mReplyStatus := Function.update q.mReplyStatus replyId s }

/-- `MessageQueue::remove`: early-out on an empty queue, otherwise erase
every message whose id matches, then — when reply slots exist — resolve
the slot with `INVALID_OPERATION` to unblock a waiting sender. -/
def MessageQueue.remove (q : MessageQueue) (id : Nat) :
    MessageQueue × Status :=
  if q.mList.isEmpty then
    (q, .noError)
  else
    let q1 : MessageQueue := { q with mList := q.mList.filter (fun m => m.id ≠ id) }
    let q2 := if 0 < q.mNumReply then q1.reply id .invalidOp else q1
    (q2, .noError)

/-- Push a sequence of messages through `send`, in order. -/
def MessageQueue.sendAll (q : MessageQueue) (msgs : List (Msg × Option Nat)) :
    MessageQueue :=
  msgs.foldl (fun acc p => (acc.send p.1 p.2).1) q

/-- Drain helper: call `receive` repeatedly (at most `fuel` times),
collecting the messages in the order `receive` returns them. -/
def receiveDrain : Nat → MessageQueue → List Msg
  | 0, _ => []
  | Nat.succ n, q =>
    match q.receive with
    | none => []
    | some (m, q1) => m :: receiveDrain n q1

/-- Successive `receive` calls until the queue is exhausted. -/
def MessageQueue.receiveAll (q : MessageQueue) : List Msg :=
  receiveDrain q.mList.length q

theorem receiveDrain_eq_reverse (n : Nat) :
    ∀ (l : List Msg) (nr : Nat) (rs : Nat → Status), l.length = n →
      receiveDrain n ⟨l, nr, rs⟩ = l.reverse := by
  induction n with
  | zero =>
      intro l nr rs hl
      rw [List.length_eq_zero] at hl
      subst hl; rfl
  | succ n ih =>
      intro l nr rs hl
      have hne : l ≠ [] := by
        intro hnil; subst hnil; simp at hl
      have hsplit := List.dropLast_append_getLast hne
      rw [receiveDrain]
      have hrecv : MessageQueue.receive ⟨l, nr, rs⟩ =
          some (l.getLast hne, ⟨l.dropLast, nr, rs⟩) := by
        simp [MessageQueue.receive, List.getLast?_eq_getLast l hne]
      rw [hrecv]
      dsimp only
      have hlen : l.dropLast.length = n := by
        rw [List.length_dropLast]; omega
      rw [ih l.dropLast nr rs hlen]
      conv_rhs => rw [← hsplit]
      rw [List.reverse_append]
      rfl

theorem sendAll_mList (msgs : List (Msg × Option Nat)) :
    ∀ (q : MessageQueue), 0 < q.mNumReply →
      ((q.sendAll msgs).mList = (msgs.map Prod.fst).reverse ++ q.mList ∧
       (q.sendAll msgs).mNumReply = q.mNumReply) := by
  induction msgs with
  | nil => intro q hq; simp [MessageQueue.sendAll]
  | cons p ps ih =>
      intro q hq
      have hstep : ((q.send p.1 p.2).1.mList = p.1 :: q.mList ∧
          (q.send p.1 p.2).1.mNumReply = q.mNumReply) := by
        cases p.2 with
        | none => simp [MessageQueue.send]
        | some r =>
            have : ¬ q.mNumReply = 0 := by omega
            simp [MessageQueue.send, this]
      have h1 : (q.sendAll (p :: ps)) = ((q.send p.1 p.2).1.sendAll ps) := by
        simp [MessageQueue.sendAll]
      rw [h1]
      have := ih (q.send p.1 p.2).1 (by rw [hstep.2]; exact hq)
      rw [this.1, this.2, hstep.1, hstep.2]
      simp

/-- C9: starting from an empty queue, sending any sequence of commands
(with or without reply requests, on a queue whose reply slots exist so
that every send enqueues) and then calling `receive` repeatedly returns
the commands in exactly the order they were sent, oldest first. -/
theorem messageQueue_fifo (msgs : List (Msg × Option Nat)) (nr : Nat)
    (rs : Nat → Status) (hnr : 0 < nr) :
    (MessageQueue.sendAll ⟨[], nr, rs⟩ msgs).receiveAll = msgs.map Prod.fst := by
  have h := sendAll_mList msgs ⟨[], nr, rs⟩ hnr
  simp only [List.append_nil] at h
  unfold MessageQueue.receiveAll
  obtain ⟨h1, -⟩ := h
  have hq : MessageQueue.sendAll ⟨[], nr, rs⟩ msgs =
      ⟨(msgs.map Prod.fst).reverse, (MessageQueue.sendAll ⟨[], nr, rs⟩ msgs).mNumReply,
       (MessageQueue.sendAll ⟨[], nr, rs⟩ msgs).mReplyStatus⟩ := by
    cases hqq : MessageQueue.sendAll ⟨[], nr, rs⟩ msgs
    simp only [hqq] at h1 ⊢
    simp [h1]
  rw [hq]
  simp only []
  rw [receiveDrain_eq_reverse _ _ _ _ rfl]
  simp

/-- C9 witness: the FIFO theorem applied to a concrete 3-message send
sequence on a queue with one reply slot. -/
theorem messageQueue_fifo_witness :
    0 < 1 ∧
    (MessageQueue.sendAll ⟨[], 1, fun _ => Status.noError⟩
        [(⟨0, 10⟩, none), (⟨1, 11⟩, none), (⟨2, 12⟩, none)]).receiveAll =
      [⟨0, 10⟩, ⟨1, 11⟩, ⟨2, 12⟩] :=
  ⟨by decide,
   messageQueue_fifo [(⟨0, 10⟩, none), (⟨1, 11⟩, none), (⟨2, 12⟩, none)] 1
     (fun _ => Status.noError) (by decide)⟩

/-! ## ControlThread message ids, states and the public facade -/

/-- `ControlThread::State`. -/
inductive CtlState where
  | stopped | previewStill | previewVideo | recording | capture
  deriving DecidableEq, Repr

/-- `ControlThread::MessageId` (the ids visible in `ControlThread.cpp`). -/
inductive CtlMsgId where
  | exit | startPreview | stopPreview | startRecording | stopRecording
  | releasePreviewFrame | takePicture | cancelPicture | autoFocus
  | cancelAutoFocus | releaseRecordingFrame | previewDone | pictureDone
  | redEyeRemovalDone | autoFocusDone | setParameters | getParameters
  | command
  deriving DecidableEq, Repr

/-- The caller-facing facade entry points of `ControlThread`. -/
inductive FacadeApi where
  | startPreview | stopPreview | startRecording | stopRecording
  | takePicture | cancelPicture | autoFocus | cancelAutoFocus
  | setParameters | getParameters | releaseRecordingFrame | sendCommand
  deriving DecidableEq, Repr

/-- The worker-pipeline completion notifications routed through the
facade. -/
inductive Notification where
  | previewDone | pictureDone | autoFocusDone | redEyeRemovalDone
  deriving DecidableEq, Repr

/-- One `mMessageQueue.send` issued by a facade function: the message id
pushed and the reply id passed (none = the C++ default `-1`, i.e. the
call returns without waiting). -/
structure FacadeSend where
  msgId   : CtlMsgId
  replyId : Option CtlMsgId
  deriving DecidableEq, Repr

/-- What each facade entry point sends, read off the facade functions at
the top of `ControlThread.cpp`.  `none` means the function returns
without sending anything (only `stopPreview` in state `STATE_STOPPED`
does this). -/
def facadeSend : FacadeApi → CtlState → Option FacadeSend
  | .startPreview, _ => some ⟨.startPreview, some .startPreview⟩
  | .stopPreview, s =>
      if s = .stopped then none else some ⟨.stopPreview, some .stopPreview⟩
  | .startRecording, _ => some ⟨.startRecording, some .startRecording⟩
  | .stopRecording, _ => some ⟨.stopRecording, some .stopRecording⟩
  | .takePicture, _ => some ⟨.takePicture, none⟩
  | .cancelPicture, _ => some ⟨.cancelPicture, none⟩
  | .autoFocus, _ => some ⟨.autoFocus, none⟩
  | .cancelAutoFocus, _ => some ⟨.cancelAutoFocus, none⟩
  | .setParameters, _ => some ⟨.setParameters, some .setParameters⟩
  | .getParameters, _ => some ⟨.getParameters, some .getParameters⟩
  | .releaseRecordingFrame, _ => some ⟨.releaseRecordingFrame, none⟩
  | .sendCommand, _ => some ⟨.command, none⟩

/-- What each completion notification sends (all asynchronous). -/
def notificationSend : Notification → FacadeSend
  | .previewDone => ⟨.previewDone, none⟩
  | .pictureDone => ⟨.pictureDone, none⟩
  | .autoFocusDone => ⟨.autoFocusDone, none⟩
  | .redEyeRemovalDone => ⟨.redEyeRemovalDone, none⟩

/-- C5 counterexample: `ControlThread::takePicture` pushes its message
with the default reply id (`-1`), so the call returns immediately
instead of blocking until the handler replies — refuting the claim that
every listed facade call blocks for the handler's result. -/
theorem facade_takePicture_not_blocking :
    (facadeSend FacadeApi.takePicture CtlState.previewStill).map
        (fun c => c.replyId) = some none := by
  rfl

/-- C5 (amended): only startPreview, stopPreview (outside `Stopped`),
startRecording, stopRecording, setParameters and getParameters send with
a reply id and block for the handler's result (a blocked sender receives
exactly the status passed to `reply`); takePicture, cancelPicture,
autoFocus, cancelAutoFocus, releaseRecordingFrame and sendCommand send
asynchronously, as do the four completion notifications; stopPreview in
`Stopped` returns without sending at all. -/
theorem facade_reply_table (q : MessageQueue) (m : Msg) (r : Nat) (v : Status)
    (s : CtlState) (hs : s ≠ CtlState.stopped) (hq : 0 < q.mNumReply) :
    facadeSend .startPreview s = some ⟨.startPreview, some .startPreview⟩ ∧
    facadeSend .stopPreview .stopped = none ∧
    facadeSend .stopPreview s = some ⟨.stopPreview, some .stopPreview⟩ ∧
    facadeSend .startRecording s = some ⟨.startRecording, some .startRecording⟩ ∧
    facadeSend .stopRecording s = some ⟨.stopRecording, some .stopRecording⟩ ∧
    facadeSend .setParameters s = some ⟨.setParameters, some .setParameters⟩ ∧
    facadeSend .getParameters s = some ⟨.getParameters, some .getParameters⟩ ∧
    facadeSend .takePicture s = some ⟨.takePicture, none⟩ ∧
    facadeSend .cancelPicture s = some ⟨.cancelPicture, none⟩ ∧
    facadeSend .autoFocus s = some ⟨.autoFocus, none⟩ ∧
    facadeSend .cancelAutoFocus s = some ⟨.cancelAutoFocus, none⟩ ∧
    facadeSend .releaseRecordingFrame s = some ⟨.releaseRecordingFrame, none⟩ ∧
    facadeSend .sendCommand s = some ⟨.command, none⟩ ∧
    (∀ n : Notification, (notificationSend n).replyId = none) ∧
    (q.send m (some r)).2 = SendOutcome.waitsOn r ∧
    ((q.send m (some r)).1.reply r v).mReplyStatus r = v := by
  have hnz : ¬ q.mNumReply = 0 := by omega
  refine ⟨rfl, rfl, ?_, rfl, rfl, rfl, rfl, rfl, rfl, rfl, rfl, rfl, rfl,
    fun n => by cases n <;> rfl, ?_, ?_⟩
  · cases s <;> simp_all [facadeSend]
  · simp [MessageQueue.send, hnz]
  · simp [MessageQueue.send, MessageQueue.reply, hnz]

/-- C5 witness: the amended facade table applied in state `Recording`
with a concrete queue carrying five reply slots. -/
theorem facade_reply_table_witness :
    CtlState.recording ≠ CtlState.stopped ∧
    facadeSend .stopPreview CtlState.recording =
      some ⟨.stopPreview, some .stopPreview⟩ :=
  ⟨by decide,
   (facade_reply_table ⟨[], 5, fun _ => Status.noError⟩ ⟨0, 0⟩ 1 Status.badValue
      CtlState.recording (by decide) (by decide)).2.2.1⟩

/-- C6 counterexample: on an entirely empty queue, `remove` returns at
once via the `isEmpty()` early-out and never touches the reply slot, so
a sender blocked on kind 3 stays blocked (`WOULD_BLOCK`) instead of
being resolved with the cancellation code — refuting the claim for the
empty-queue case. -/
theorem remove_empty_queue_leaves_waiter :
    (MessageQueue.remove ⟨[], 20, fun _ => Status.wouldBlock⟩ 3).1.mReplyStatus 3 =
      Status.wouldBlock := by
  rfl

/-- C6 (amended): whenever the queue is non-empty at the time of the
call (even if it holds no command of kind `id`), `remove` erases exactly
the messages of kind `id` and resolves kind `id`'s reply slot with the
cancellation code `INVALID_OPERATION`, unblocking any waiting sender;
but when the queue is entirely empty, `remove` returns `NO_ERROR`
immediately and leaves the queue and every reply slot untouched. -/
theorem remove_resolves_slot (q : MessageQueue) (id : Nat)
    (hne : q.mList ≠ []) (hnr : 0 < q.mNumReply) :
    (q.remove id).1.mReplyStatus id = Status.invalidOp ∧
    (q.remove id).1.mList = q.mList.filter (fun m => m.id ≠ id) ∧
    (q.remove id).2 = Status.noError ∧
    (∀ q0 : MessageQueue, q0.mList = [] → q0.remove id = (q0, Status.noError)) := by
  have hemp : q.mList.isEmpty = false := by
    cases hq : q.mList with
    | nil => exact absurd hq hne
    | cons a l => rfl
  refine ⟨?_, ?_, ?_, fun q0 h0 => by simp [MessageQueue.remove, h0]⟩ <;>
    simp [MessageQueue.remove, MessageQueue.reply, hemp, hnr]

/-- C6 witness: `remove` applied to a concrete non-empty queue holding
no message of the removed kind 7; the waiter of kind 7 is unblocked. -/
theorem remove_resolves_slot_witness :
    ((⟨[⟨5, 0⟩], 2, fun _ => Status.wouldBlock⟩ : MessageQueue).remove 7).1.mReplyStatus 7 =
      Status.invalidOp :=
  (remove_resolves_slot ⟨[⟨5, 0⟩], 2, fun _ => Status.wouldBlock⟩ 7
      (by simp) (by decide)).1

/-! ## CameraDriver buffer pool (`CameraDriver::queueBuffer` et al.)

`mBufferPool` plus `mSessionId`.  The V4L2 device is abstracted by
`deviceQueue`, the FIFO of indices currently queued to hardware:
`VIDIOC_QBUF` succeeds exactly on a valid pool index not already
queued, and `VIDIOC_DQBUF` hands back the oldest queued index, failing
when none is queued. -/

/-- `CameraDriver::Mode`. -/
inductive DriverMode where
  | modeNone | preview | video | capture
  deriving DecidableEq, Repr

/-- A `CameraBuffer` as seen by consumers: pool index `mID` and session
tag `mDriverPrivate` (stamped at dequeue time). -/
structure CamBuffer where
  id  : Nat
  tag : Nat
  deriving DecidableEq, Repr

/-- Driver state: the buffer pool, the session id and the current mode. -/
structure DriverState where
  allocated        : Bool        -- mBufferPool.bufs != NULL
  numBuffers       : Nat         -- mBufferPool.numBuffers
  numBuffersQueued : Int         -- mBufferPool.numBuffersQueued (a C int)
  sessionId        : Nat         -- mSessionId
  mode             : DriverMode  -- mMode
  deviceQueue      : List Nat    -- abstract device: indices it holds
  deriving DecidableEq, Repr

/-- The zeroed pool of a freshly constructed driver. -/
def zeroDriver : DriverState := ⟨false, 0, 0, 0, .modeNone, []⟩

/-- `CameraDriver::queueBuffer`: outside the initial fill the buffer's
session tag must match the pool's current session id, else the call
fails with `DEAD_OBJECT` before anything is queued; then `VIDIOC_QBUF`,
and only on its success is `numBuffersQueued` incremented. -/
def queueBuffer (s : DriverState) (b : CamBuffer) (init : Bool) :
    DriverState × Status :=
  if init = false ∧ b.tag ≠ s.sessionId then
    (s, .deadObject)
  else if b.id < s.numBuffers ∧ b.id ∉ s.deviceQueue then
    ({ s with deviceQueue := s.deviceQueue ++ [b.id],
              numBuffersQueued := s.numBuffersQueued + 1 }, .noError)
  else
    (s, .unknownError)

/-- `CameraDriver::dequeueBuffer`: `VIDIOC_DQBUF` (fails when the device
holds nothing), stamp the returned buffer's tag with the current
session id, decrement `numBuffersQueued`. -/
def dequeueBuffer (s : DriverState) : DriverState × Option CamBuffer × Status :=
  match s.deviceQueue with
  | [] => (s, none, .unknownError)
  | i :: rest =>
      ({ s with deviceQueue := rest,
                numBuffersQueued := s.numBuffersQueued - 1 },
       some ⟨i, s.sessionId⟩, .noError)

/-- `CameraDriver::allocateBuffers`: fails fast when buffers exist,
otherwise `VIDIOC_REQBUFS(n)` plus per-index allocation, leaving a pool
of `n` buffers with nothing queued. -/
def allocateBuffers (s : DriverState) (n : Nat) : DriverState × Status :=
  if s.allocated then
    (s, .unknownError)
  else
    ({ s with allocated := true, numBuffers := n,
              numBuffersQueued := 0, deviceQueue := [] }, .noError)

/-- `CameraDriver::freeBuffers`: no-op when already empty, otherwise
release the device reservation and zero the pool struct. -/
def freeBuffers (s : DriverState) : DriverState × Status :=
  if s.allocated = false then
    (s, .noError)
  else
    ({ s with allocated := false, numBuffers := 0,
              numBuffersQueued := 0, deviceQueue := [] }, .noError)

/-- The initial-fill loop of `CameraDriver::startDevice`: queue each
pool buffer with `init = true`, aborting on the first failure. -/
def fillBuffers (s : DriverState) : List Nat → DriverState × Status
  | [] => (s, .noError)
  | i :: rest =>
      match queueBuffer s ⟨i, 0⟩ true with
      | (s1, .noError) => fillBuffers s1 rest
      | (s1, _) => (s1, .unknownError)

/-- `CameraDriver::startDevice`: initial fill of every pool index, then
`VIDIOC_STREAMON`. -/
def startDevice (s : DriverState) : DriverState × Status :=
  fillBuffers s (List.range s.numBuffers)

/-- `CameraDriver::start(mode)` through `startPreview` / `startRecording`
/ `startCapture`: open, configure (which allocates `n` buffers), initial
fill and stream-on, unwinding on partial failure; on success `mMode` is
set and `mSessionId` is incremented. -/
def driverStart (s : DriverState) (m : DriverMode) (n : Nat) :
    DriverState × Status :=
  match allocateBuffers s n with
  | (s1, .noError) =>
      match startDevice s1 with
      | (s2, .noError) =>
          ({ s2 with mode := m, sessionId := s2.sessionId + 1 }, .noError)
      | (s2, _) => ((freeBuffers s2).1, .unknownError)
  | (_, _) => (s, .unknownError)

/-- `CameraDriver::stop` through `stopPreview` / `stopRecording` /
`stopCapture`: stream-off (the device drops its buffers), free the pool,
close, and clear `mMode`. -/
def driverStop (s : DriverState) : DriverState × Status :=
  if s.mode = .modeNone then
    ({ s with mode := .modeNone }, .noError)
  else
    ({ (freeBuffers { s with deviceQueue := [] }).1 with mode := .modeNone },
     .noError)

/-- One pool-affecting operation, for stating the conservation
invariant over arbitrary operation sequences. -/
inductive PoolOp where
  | queue (b : CamBuffer) (init : Bool)
  | dequeue
  | alloc (n : Nat)
  | free
  deriving DecidableEq, Repr

/-- Apply one pool operation (dropping statuses and returned buffers). -/
def poolStep (s : DriverState) : PoolOp → DriverState
  | .queue b init => (queueBuffer s b init).1
  | .dequeue => (dequeueBuffer s).1
  | .alloc n => (allocateBuffers s n).1
  | .free => (freeBuffers s).1

/-- Run a sequence of pool operations. -/
def poolRun (s : DriverState) (ops : List PoolOp) : DriverState :=
  ops.foldl poolStep s

/-- The pool/device coherence invariant: the software counter agrees
with the number of buffers the device holds, the device holds each index
at most once, and only valid pool indices. -/
def PoolInv (s : DriverState) : Prop :=
  s.numBuffersQueued = s.deviceQueue.length ∧
  s.deviceQueue.Nodup ∧
  (∀ i ∈ s.deviceQueue, i < s.numBuffers)

/-- Number of pool buffers currently held by consumers, i.e. valid
indices the device does not hold. -/
def consumerHeldCount (s : DriverState) : Nat :=
  ((Finset.range s.numBuffers).filter (fun i => i ∉ s.deviceQueue)).card

theorem poolInv_step (s : DriverState) (op : PoolOp) (h : PoolInv s) :
    PoolInv (poolStep s op) := by
  obtain ⟨hc, hnd, hb⟩ := h
  cases op with
  | queue b init =>
      simp only [poolStep]
      unfold queueBuffer
      split
      · exact ⟨hc, hnd, hb⟩
      · split
        · rename_i hcond
          refine ⟨?_, ?_, ?_⟩
          · show s.numBuffersQueued + 1 = ((s.deviceQueue ++ [b.id]).length : Int)
            simp [hc]
          · show (s.deviceQueue ++ [b.id]).Nodup
            simp [List.nodup_append, hnd, hcond.2]
          · intro i hi
            show i < s.numBuffers
            rcases List.mem_append.mp hi with hi | hi
            · exact hb i hi
            · have : i = b.id := by simpa using hi
              subst this
              exact hcond.1
        · exact ⟨hc, hnd, hb⟩
  | dequeue =>
      simp only [poolStep]
      unfold dequeueBuffer
      cases hq : s.deviceQueue with
      | nil => exact ⟨hc, hnd, hb⟩
      | cons i rest =>
          rw [hq] at hc hnd hb
          refine ⟨?_, ?_, ?_⟩
          · show s.numBuffersQueued - 1 = (rest.length : Int)
            simp at hc; omega
          · exact hnd.of_cons
          · intro j hj
            show j < s.numBuffers
            exact hb j (List.mem_cons_of_mem i hj)
  | alloc n =>
      simp only [poolStep]
      unfold allocateBuffers
      split
      · exact ⟨hc, hnd, hb⟩
      · exact ⟨by simp, by simp, by simp⟩
  | free =>
      simp only [poolStep]
      unfold freeBuffers
      split
      · exact ⟨hc, hnd, hb⟩
      · exact ⟨by simp, by simp, by simp⟩

theorem poolInv_run (ops : List PoolOp) :
    ∀ s : DriverState, PoolInv s → PoolInv (poolRun s ops) := by
  induction ops with
  | nil => intro s h; exact h
  | cons op rest ih =>
      intro s h
      exact ih (poolStep s op) (poolInv_step s op h)

theorem fillBuffers_spec (l : List Nat) :
    ∀ s : DriverState, (s.deviceQueue ++ l).Nodup →
      (∀ i ∈ l, i < s.numBuffers) →
      fillBuffers s l =
        ({ s with deviceQueue := s.deviceQueue ++ l,
                  numBuffersQueued := s.numBuffersQueued + l.length },
         .noError) := by
  induction l with
  | nil =>
      intro s hnd hb
      simp only [fillBuffers, List.append_nil, List.length_nil]
      cases s; simp
  | cons i rest ih =>
      intro s hnd hb
      have hi_lt : i < s.numBuffers := hb i (List.mem_cons_self i rest)
      have hi_nin : i ∉ s.deviceQueue := by
        intro hmem
        have := (List.nodup_append.mp hnd).2.2
        exact this hmem (List.mem_cons_self i rest)
      have hq : queueBuffer s ⟨i, 0⟩ true =
          ({ s with deviceQueue := s.deviceQueue ++ [i],
                    numBuffersQueued := s.numBuffersQueued + 1 }, .noError) := by
        simp [queueBuffer, hi_lt, hi_nin]
      rw [fillBuffers, hq]
      dsimp only
      have hnd2 : ((s.deviceQueue ++ [i]) ++ rest).Nodup := by
        simpa [List.append_assoc] using hnd
      have hb2 : ∀ j ∈ rest, j < s.numBuffers := by
        intro j hj; exact hb j (List.mem_cons_of_mem i hj)
      rw [ih ⟨s.allocated, s.numBuffers, s.numBuffersQueued + 1, s.sessionId,
             s.mode, s.deviceQueue ++ [i]⟩ hnd2 hb2]
      simp only [Prod.mk.injEq, DriverState.mk.injEq, List.append_assoc,
        List.singleton_append, List.length_cons, true_and, and_true]
      push_cast
      ring

/-- The pool state right after configure + initial fill: `n` buffers,
all queued to the device. -/
def initialFilled (n : Nat) : DriverState :=
  (startDevice (allocateBuffers zeroDriver n).1).1

theorem initialFilled_eq (n : Nat) :
    initialFilled n = ⟨true, n, n, 0, .modeNone, List.range n⟩ := by
  have halloc : (allocateBuffers zeroDriver n).1 =
      ⟨true, n, 0, 0, .modeNone, []⟩ := by
    simp [allocateBuffers, zeroDriver]
  unfold initialFilled startDevice
  rw [halloc]
  rw [fillBuffers_spec (List.range n) ⟨true, n, 0, 0, .modeNone, []⟩
    (by simpa using List.nodup_range n) (by simp)]
  simp

theorem poolInv_initialFilled (n : Nat) : PoolInv (initialFilled n) := by
  rw [initialFilled_eq]
  exact ⟨by simp, by simpa using List.nodup_range n, by simp⟩

theorem consumerHeldCount_eq (s : DriverState) (h : PoolInv s) :
    consumerHeldCount s = s.numBuffers - s.deviceQueue.length := by
  obtain ⟨-, hnd, hb⟩ := h
  unfold consumerHeldCount
  have hsub : ((Finset.range s.numBuffers).filter
      (fun i => i ∈ s.deviceQueue)) = s.deviceQueue.toFinset := by
    ext x
    simp only [Finset.mem_filter, Finset.mem_range, List.mem_toFinset]
    exact ⟨fun hx => hx.2, fun hx => ⟨hb x hx, hx⟩⟩
  have hcard : ((Finset.range s.numBuffers).filter
        (fun i => i ∈ s.deviceQueue)).card +
      ((Finset.range s.numBuffers).filter
        (fun i => i ∉ s.deviceQueue)).card = s.numBuffers := by
    simpa using Finset.filter_card_add_filter_neg_card_eq_card
      (s := Finset.range s.numBuffers) (p := fun i => i ∈ s.deviceQueue)
  rw [hsub] at hcard
  rw [List.toFinset_card_of_nodup hnd] at hcard
  omega

/-- C8: starting from the initial fill, after any sequence of
`queueBuffer`, `dequeueBuffer`, `allocateBuffers` and `freeBuffers`
operations, the queued-buffer counter equals the number of buffers the
device holds, that count plus the number of buffers held by consumers
equals the pool size, and the counter always lies between 0 and the pool
size inclusive. -/
theorem buffer_conservation (n : Nat) (ops : List PoolOp) :
    (poolRun (initialFilled n) ops).numBuffersQueued +
        (consumerHeldCount (poolRun (initialFilled n) ops) : Int) =
      ((poolRun (initialFilled n) ops).numBuffers : Int) ∧
    0 ≤ (poolRun (initialFilled n) ops).numBuffersQueued ∧
    (poolRun (initialFilled n) ops).numBuffersQueued ≤
      ((poolRun (initialFilled n) ops).numBuffers : Int) := by
  have hinv := poolInv_run ops (initialFilled n) (poolInv_initialFilled n)
  set s := poolRun (initialFilled n) ops with hs
  obtain ⟨hc, hnd, hb⟩ := hinv
  have hlen : s.deviceQueue.length ≤ s.numBuffers := by
    have hsubset : s.deviceQueue.toFinset ⊆ Finset.range s.numBuffers := by
      intro x hx
      rw [List.mem_toFinset] at hx
      exact Finset.mem_range.mpr (hb x hx)
    have := Finset.card_le_card hsubset
    rwa [List.toFinset_card_of_nodup hnd, Finset.card_range] at this
  have hheld := consumerHeldCount_eq s ⟨hc, hnd, hb⟩
  refine ⟨?_, ?_, ?_⟩
  · rw [hc, hheld]; omega
  · rw [hc]; omega
  · rw [hc]; exact_mod_cast hlen

theorem queueBuffer_sessionId (s : DriverState) (b : CamBuffer) (init : Bool) :
    ((queueBuffer s b init).1).sessionId = s.sessionId := by
  unfold queueBuffer
  split
  · rfl
  · split <;> rfl

theorem fillBuffers_sessionId (l : List Nat) :
    ∀ s : DriverState, ((fillBuffers s l).1).sessionId = s.sessionId := by
  induction l with
  | nil => intro s; rfl
  | cons i rest ih =>
      intro s
      rw [fillBuffers]
      cases hq : queueBuffer s ⟨i, 0⟩ true with
      | mk s1 st1 =>
          have h1 : s1.sessionId = s.sessionId := by
            have := queueBuffer_sessionId s ⟨i, 0⟩ true
            rw [hq] at this; exact this
          cases st1 <;> dsimp only <;>
            first
              | exact h1
              | exact (ih s1).trans h1

theorem allocateBuffers_sessionId (s : DriverState) (n : Nat) :
    ((allocateBuffers s n).1).sessionId = s.sessionId := by
  unfold allocateBuffers
  split <;> rfl

theorem freeBuffers_sessionId (s : DriverState) :
    ((freeBuffers s).1).sessionId = s.sessionId := by
  unfold freeBuffers
  split <;> rfl

theorem driverStart_sessionId (s : DriverState) (m : DriverMode) (k : Nat)
    (s1 : DriverState) (h : driverStart s m k = (s1, Status.noError)) :
    s1.sessionId = s.sessionId + 1 := by
  unfold driverStart at h
  cases halloc : allocateBuffers s k with
  | mk sa sta =>
      rw [halloc] at h
      have hsa : sa.sessionId = s.sessionId := by
        have := allocateBuffers_sessionId s k
        rw [halloc] at this; exact this
      cases sta
      case noError =>
          dsimp only at h
          cases hdev : startDevice sa with
          | mk sd std =>
              rw [hdev] at h
              have hsd : sd.sessionId = sa.sessionId := by
                have := fillBuffers_sessionId (List.range sa.numBuffers) sa
                unfold startDevice at hdev
                rw [hdev] at this; exact this
              cases std
              case noError =>
                  dsimp only at h
                  have hs1 : s1 =
                      { sd with mode := m, sessionId := sd.sessionId + 1 } := by
                    have := congrArg Prod.fst h
                    simpa using this.symm
                  rw [hs1]
                  show sd.sessionId + 1 = s.sessionId + 1
                  rw [hsd, hsa]
              all_goals (dsimp only at h; exact absurd (congrArg Prod.snd h) (by simp))
      all_goals (dsimp only at h; exact absurd (congrArg Prod.snd h) (by simp))

theorem driverStop_sessionId (s : DriverState) :
    ((driverStop s).1).sessionId = s.sessionId := by
  unfold driverStop
  split
  · rfl
  · show ((freeBuffers { s with deviceQueue := [] }).1).sessionId = s.sessionId
    exact freeBuffers_sessionId { s with deviceQueue := [] }

/-- C2: a buffer whose session tag differs from the pool's current
session id — in particular any buffer dequeued before the device was
stopped and started again, since a successful `start` increments the
session id and `stop` leaves it unchanged — is rejected by
`queueBuffer(init = false)` with `DEAD_OBJECT`: the state, and with it
the queued-buffer counter and the device's queue, are untouched. -/
theorem stale_buffer_rejected (s0 s2 : DriverState) (b : CamBuffer)
    (hdq : ((dequeueBuffer s0).2.1 = some b))
    (hs2 : s2.sessionId = s0.sessionId + 1) :
    b.tag = s0.sessionId ∧
    queueBuffer s2 b false = (s2, Status.deadObject) ∧
    (queueBuffer s2 b false).1.numBuffersQueued = s2.numBuffersQueued ∧
    (queueBuffer s2 b false).1.deviceQueue = s2.deviceQueue ∧
    (∀ (s : DriverState) (m : DriverMode) (k : Nat) (s1 : DriverState),
        driverStart s m k = (s1, Status.noError) →
        s1.sessionId = s.sessionId + 1) ∧
    (∀ s : DriverState, ((driverStop s).1).sessionId = s.sessionId) := by
  have htag : b.tag = s0.sessionId := by
    unfold dequeueBuffer at hdq
    cases hq : s0.deviceQueue with
    | nil => rw [hq] at hdq; simp at hdq
    | cons i rest =>
        rw [hq] at hdq
        simp only [Option.some.injEq] at hdq
        rw [← hdq]
  have hne : b.tag ≠ s2.sessionId := by omega
  have hrej : queueBuffer s2 b false = (s2, Status.deadObject) := by
    simp [queueBuffer, hne]
  exact ⟨htag, hrej, by rw [hrej], by rw [hrej],
    fun s m k s1 h => driverStart_sessionId s m k s1 h, driverStop_sessionId⟩

/-- C2 witness: fill a 2-buffer pool in session 1, dequeue buffer 0,
stop and restart (session 2), then try to requeue the stale buffer. -/
theorem stale_buffer_rejected_witness :
    ((dequeueBuffer ⟨true, 2, 2, 1, .preview, [0, 1]⟩).2.1 = some ⟨0, 1⟩) ∧
    queueBuffer ⟨true, 2, 2, 2, .preview, [0, 1]⟩ ⟨0, 1⟩ false =
      (⟨true, 2, 2, 2, .preview, [0, 1]⟩, Status.deadObject) :=
  ⟨by decide,
   (stale_buffer_rejected ⟨true, 2, 2, 1, .preview, [0, 1]⟩
      ⟨true, 2, 2, 2, .preview, [0, 1]⟩ ⟨0, 1⟩ (by decide) (by decide)).2.1⟩

/-! ## Coupled buffers (`ControlThread::queueCoupledBuffers` and the
release handlers)

`CoupledBuffer` is modelled by its four flags; the buffer handles
themselves play no role in the release logic.  The driver `put` calls
are recorded as emitted operations (the abstract device accepts them). -/

/-- The flags of one `CoupledBuffer` entry. -/
structure CoupledBuffer where
  previewBuffReturned       : Bool
  recordingBuffReturned     : Bool
  videoSnapshotBuff         : Bool
  videoSnapshotBuffReturned : Bool
  deriving DecidableEq, Repr, Fintype

/-- Driver put calls emitted by `queueCoupledBuffers`. -/
inductive CoupledPut where
  | putRecording | putPreview
  deriving DecidableEq, Repr

/-- `ControlThread::queueCoupledBuffers`: a no-op unless the preview and
recording flags are set and any video-snapshot borrow has completed;
otherwise the recording frame and the preview frame are put back to the
driver. -/
def queueCoupledBuffers (buff : CoupledBuffer) :
    CoupledBuffer × List CoupledPut × Status :=
  if !buff.previewBuffReturned || !buff.recordingBuffReturned ||
      (buff.videoSnapshotBuff && !buff.videoSnapshotBuffReturned) then
    (buff, [], .noError)
  else
    (buff, [.putRecording, .putPreview], .noError)

/-- A release event for one buffer index during a recording session. -/
inductive ReleaseEvent where
  | previewDone   -- handleMessageReleasePreviewFrame (video path)
  | recordingDone -- handleMessageReleaseRecordingFrame
  | snapshotDone  -- handleMessagePictureDone in STATE_RECORDING
  deriving DecidableEq, Repr, Fintype

/-- The per-event flag updates and `queueCoupledBuffers` call, as done
by the three release handlers in `ControlThread.cpp`. -/
def releaseStep (cb : CoupledBuffer) : ReleaseEvent → CoupledBuffer × List CoupledPut
  | .previewDone =>
      let r := queueCoupledBuffers { cb with previewBuffReturned := true }
      (r.1, r.2.1)
  | .recordingDone =>
      let r := queueCoupledBuffers { cb with recordingBuffReturned := true }
      (r.1, r.2.1)
  | .snapshotDone =>
      let r := queueCoupledBuffers { cb with videoSnapshotBuffReturned := true }
      ({ r.1 with videoSnapshotBuffReturned := false, videoSnapshotBuff := false },
       r.2.1)

/-- Run a sequence of release events, counting how many times the
physical buffer is put back to the driver (= executions of the
non-trivial branch of `queueCoupledBuffers`). -/
def releaseRun : CoupledBuffer → List ReleaseEvent → CoupledBuffer × Nat
  | cb, [] => (cb, 0)
  | cb, e :: rest =>
      let r1 := releaseStep cb e
      let r2 := releaseRun r1.1 rest
      (r2.1, r1.2.count .putRecording + r2.2)

/-- The `CoupledBuffer` entry for an index right after its preview and
recording frames were dequeued; `borrowed` marks a video-snapshot borrow
(`videoSnapshotBuff` set by `handleMessageTakePicture`). -/
def initialCoupled (borrowed : Bool) : CoupledBuffer :=
  ⟨false, false, borrowed, false⟩

/-- C1: `queueCoupledBuffers` is a no-op while the preview and recording
returned-flags are not both set, or while a video-snapshot borrow is
outstanding; and across any sequence of distinct release events for one
index within one session, the physical buffer is put back to the driver
exactly once when all relevant returned-flags become true, and never
more than once. -/
theorem coupled_release_once (borrowed : Bool) (evts : List ReleaseEvent)
    (hnd : evts.Nodup)
    (hsnap : ReleaseEvent.snapshotDone ∈ evts → borrowed = true) :
    (∀ cb : CoupledBuffer,
        (cb.previewBuffReturned = false ∨ cb.recordingBuffReturned = false ∨
            (cb.videoSnapshotBuff = true ∧ cb.videoSnapshotBuffReturned = false)) →
        queueCoupledBuffers cb = (cb, [], Status.noError)) ∧
    (releaseRun (initialCoupled borrowed) evts).2 ≤ 1 ∧
    ((releaseRun (initialCoupled borrowed) evts).2 = 1 ↔
      (ReleaseEvent.previewDone ∈ evts ∧ ReleaseEvent.recordingDone ∈ evts ∧
        (borrowed = true → ReleaseEvent.snapshotDone ∈ evts))) := by
  refine ⟨by decide, ?_⟩
  rcases evts with _ | ⟨a, _ | ⟨b, _ | ⟨c, _ | ⟨d, rest⟩⟩⟩⟩
  · revert hsnap; cases borrowed <;> decide
  · revert hnd hsnap; cases borrowed <;> cases a <;> decide
  · revert hnd hsnap; cases borrowed <;> cases a <;> cases b <;> decide
  · revert hnd hsnap; cases borrowed <;> cases a <;> cases b <;> cases c <;> decide
  · exfalso
    have hle := hnd.length_le_card
    have hcard : Fintype.card ReleaseEvent = 3 := by rfl
    rw [hcard] at hle
    simp only [List.length_cons] at hle
    omega

/-- C1 witness: a borrowed buffer whose snapshot completes first, then
preview, then recording: put back to the driver exactly once. -/
theorem coupled_release_once_witness :
    (releaseRun (initialCoupled true)
        [ReleaseEvent.snapshotDone, ReleaseEvent.previewDone,
         ReleaseEvent.recordingDone]).2 = 1 :=
  ((coupled_release_once true
      [ReleaseEvent.snapshotDone, ReleaseEvent.previewDone,
       ReleaseEvent.recordingDone] (by decide) (by decide)).2.2).mpr (by decide)

/-! ## Control-thread event loop (`ControlThread::threadLoop`) -/

/-- What one iteration of the `while (mThreadRunning)` loop does. -/
inductive LoopAction where
  | waitAndExecute -- waitForAndExecuteMessage(): handle one command, or block
  | dequeueData    -- dequeuePreview() / dequeueRecording()+dequeuePreview()
  | spin           -- no switch case: the iteration does nothing
  deriving DecidableEq, Repr

/-- One iteration of `ControlThread::threadLoop`, as a function of the
state, whether the message queue is non-empty, and whether the driver
reports data available.  `STATE_CAPTURE` has no case in the switch, so
the iteration falls through the `default: break` and does nothing. -/
def loopIteration (state : CtlState) (queueNonEmpty dataAvail : Bool) :
    LoopAction :=
  match state with
  | .stopped => .waitAndExecute
  | .previewStill =>
      if queueNonEmpty then .waitAndExecute
      else if dataAvail then .dequeueData
      else .waitAndExecute
  | .previewVideo =>
      if queueNonEmpty then .waitAndExecute
      else if dataAvail then .dequeueData
      else .waitAndExecute
  | .recording =>
      if queueNonEmpty then .waitAndExecute
      else if dataAvail then .dequeueData
      else .waitAndExecute
  | .capture => .spin

/-- C3: in states Stopped, PreviewStill, PreviewVideo and Recording the
loop handles a command whenever one is queued and dequeues data only
when the queue is empty and data is available — but in state Capture an
iteration does nothing at all: with a command pending (and data
available) it neither handles the command, nor dequeues data, nor
blocks, contradicting the claim's "in any state". -/
theorem threadLoop_iteration_table :
    loopIteration CtlState.capture true true = LoopAction.spin ∧
    (∀ q d : Bool, loopIteration CtlState.capture q d = LoopAction.spin) ∧
    (∀ d : Bool, loopIteration CtlState.stopped true d = LoopAction.waitAndExecute) ∧
    (∀ d : Bool, loopIteration CtlState.previewStill true d = LoopAction.waitAndExecute) ∧
    (∀ d : Bool, loopIteration CtlState.previewVideo true d = LoopAction.waitAndExecute) ∧
    (∀ d : Bool, loopIteration CtlState.recording true d = LoopAction.waitAndExecute) ∧
    loopIteration CtlState.previewStill false true = LoopAction.dequeueData ∧
    loopIteration CtlState.previewVideo false true = LoopAction.dequeueData ∧
    loopIteration CtlState.recording false true = LoopAction.dequeueData ∧
    loopIteration CtlState.stopped false true = LoopAction.waitAndExecute ∧
    loopIteration CtlState.previewStill false false = LoopAction.waitAndExecute ∧
    loopIteration CtlState.previewVideo false false = LoopAction.waitAndExecute ∧
    loopIteration CtlState.recording false false = LoopAction.waitAndExecute := by
  decide

/-! ## Picture-done handling (`ControlThread::handleMessagePictureDone`
and `ControlThread::stopCapture`) -/

/-- Operations the picture-done / stop-capture code performs. -/
inductive CtlOp where
  | putSnapshot | putThumbnail | flushPictureThread | driverStopOp
  | putRecording | putPreview
  deriving DecidableEq, Repr

/-- `ControlThread::handleMessagePictureDone`, parametrised by the
coupled-buffer entry of the snapshot's index and by the statuses the
driver returns for `putSnapshot` / `putThumbnail`.  In `STATE_RECORDING`
it runs the snapshot-release step of the coupled-buffer protocol; in
`STATE_CAPTURE` it puts the snapshot and postview frames back; in every
other state it does nothing. -/
def handleMessagePictureDone (state : CtlState) (cb : CoupledBuffer)
    (putSnapRes putThumbRes : Status) :
    CtlState × CoupledBuffer × List CtlOp × Status :=
  match state with
  | .recording =>
      let r := queueCoupledBuffers { cb with videoSnapshotBuffReturned := true }
      let cb3 := { r.1 with videoSnapshotBuffReturned := false,
                            videoSnapshotBuff := false }
      (state, cb3,
       r.2.1.map (fun p => match p with
         | .putRecording => CtlOp.putRecording
         | .putPreview => CtlOp.putPreview),
       r.2.2)
  | .capture =>
      let st :=
        if putSnapRes = .deadObject ∨ putThumbRes = .deadObject then
          putSnapRes
        else if putSnapRes ≠ .noError ∨ putThumbRes ≠ .noError then
          (if putSnapRes ≠ .noError then putSnapRes else putThumbRes)
        else putSnapRes
      (state, cb, [CtlOp.putSnapshot, CtlOp.putThumbnail], st)
  | _ => (state, cb, [], .noError)

/-- `ControlThread::stopCapture`, parametrised by the statuses of the
picture-thread flush and the driver stop. -/
def stopCapture (state : CtlState) (flushRes stopRes : Status) :
    CtlState × List CtlOp × Status :=
  if state ≠ .capture then
    (state, [], .invalidOp)
  else
    match flushRes with
    | .noError =>
        match stopRes with
        | .noError =>
            (.stopped, [CtlOp.flushPictureThread, CtlOp.driverStopOp], .noError)
        | st => (state, [CtlOp.flushPictureThread, CtlOp.driverStopOp], st)
    | st => (state, [CtlOp.flushPictureThread], st)

/-- C4 counterexample: handling pictureDone in state Capture (with both
driver puts succeeding) leaves the state at Capture and never stops the
driver — the claimed transition to Stopped does not happen there. -/
theorem pictureDone_capture_no_stop :
    (handleMessagePictureDone CtlState.capture (initialCoupled false)
        Status.noError Status.noError).1 = CtlState.capture ∧
    CtlOp.driverStopOp ∉
      (handleMessagePictureDone CtlState.capture (initialCoupled false)
        Status.noError Status.noError).2.2.1 := by
  decide

/-- C4 (amended): handling pictureDone in state Capture only returns the
snapshot and postview frames to the driver, leaving the state at Capture
and the coupled entry untouched; the device stop and the transition to
Stopped happen in `stopCapture` — invoked when the *next* startPreview
is handled in state Capture — which flushes the picture thread, stops
the driver and sets the state to Stopped, and which rejects every other
state with `INVALID_OPERATION`. -/
theorem pictureDone_capture_behaviour (cb : CoupledBuffer)
    (st1 st2 : Status) (s : CtlState) (hs : s ≠ CtlState.capture) :
    (handleMessagePictureDone CtlState.capture cb st1 st2).1 =
      CtlState.capture ∧
    (handleMessagePictureDone CtlState.capture cb st1 st2).2.2.1 =
      [CtlOp.putSnapshot, CtlOp.putThumbnail] ∧
    (handleMessagePictureDone CtlState.capture cb st1 st2).2.1 = cb ∧
    stopCapture CtlState.capture Status.noError Status.noError =
      (CtlState.stopped, [CtlOp.flushPictureThread, CtlOp.driverStopOp],
       Status.noError) ∧
    stopCapture s st1 st2 = (s, [], Status.invalidOp) := by
  refine ⟨rfl, rfl, rfl, rfl, ?_⟩
  simp [stopCapture, hs]

/-- C4 witness: the amended behaviour applied with state Recording as
the non-Capture state and concrete driver statuses. -/
theorem pictureDone_capture_behaviour_witness :
    (handleMessagePictureDone CtlState.capture (initialCoupled false)
        Status.noError Status.invalidOp).2.2.1 =
      [CtlOp.putSnapshot, CtlOp.putThumbnail] ∧
    stopCapture CtlState.recording Status.noError Status.invalidOp =
      (CtlState.recording, [], Status.invalidOp) :=
  ⟨(pictureDone_capture_behaviour (initialCoupled false) Status.noError
      Status.invalidOp CtlState.recording (by decide)).2.1,
   (pictureDone_capture_behaviour (initialCoupled false) Status.noError
      Status.invalidOp CtlState.recording (by decide)).2.2.2.2⟩

/-! ## Dynamic parameter processing
(`ControlThread::processDynamicParameters` and the `processParamX`
helpers)

Each parameter field is abstracted to: is a change requested (both
values present and different), does the new value parse to a supported
constant, and — where the control code consumes the driver setter's
return value (zoom, effect, focus, metering) — what status the driver
returns.  The flash / scene / white-balance / AE-lock / AWB-lock setter
results are discarded by the source and so do not appear. -/

/-- Device updates issued by the dynamic-parameter path. -/
inductive DriverOp where
  | setZoom | setEffect | setFlashMode | setSceneMode | setFocusMode
  | setWhiteBalanceMode | setAeLock | setAwbLock | setMeteringAreas
  deriving DecidableEq, Repr

/-- Abstracted old/new parameter comparison and parse results. -/
structure ParamInputs where
  zoomChanged   : Bool
  zoomRes       : Status
  effectChanged : Bool
  effectValid   : Bool
  effectRes     : Status
  flashChanged  : Bool
  flashValid    : Bool
  sceneChanged  : Bool
  sceneValid    : Bool
  focusPresent  : Bool
  focusValid    : Bool
  focusRes      : Status
  wbChanged     : Bool
  wbValid       : Bool
  aeChanged     : Bool
  aeValid       : Bool
  awbChanged    : Bool
  awbValid      : Bool
  meteringSet   : Bool
  meteringRes   : Status
  deriving DecidableEq, Repr

/-- `ControlThread::processParamEffect`: on a changed value, an
unrecognised effect is `BAD_VALUE`; otherwise the driver result is
returned. -/
def processParamEffect (p : ParamInputs) : Status × List DriverOp :=
  if p.effectChanged then
    if p.effectValid then (p.effectRes, [.setEffect]) else (.badValue, [])
  else (.noError, [])

/-- `ControlThread::processParamFlash` (driver result discarded). -/
def processParamFlash (p : ParamInputs) : Status × List DriverOp :=
  if p.flashChanged then
    if p.flashValid then (.noError, [.setFlashMode]) else (.badValue, [])
  else (.noError, [])

/-- `ControlThread::processParamSceneMode` (driver result discarded). -/
def processParamSceneMode (p : ParamInputs) : Status × List DriverOp :=
  if p.sceneChanged then
    if p.sceneValid then (.noError, [.setSceneMode]) else (.badValue, [])
  else (.noError, [])

/-- `ControlThread::processParamFocusMode`: a missing or unparsable
focus value is `BAD_VALUE`; otherwise `setFocusMode` is always invoked
(not only on change) and its status returned. -/
def processParamFocusMode (p : ParamInputs) : Status × List DriverOp :=
  if p.focusPresent then
    if p.focusValid then (p.focusRes, [.setFocusMode]) else (.badValue, [])
  else (.badValue, [])

/-- `ControlThread::processParamWhiteBalance` (driver result
discarded). -/
def processParamWhiteBalance (p : ParamInputs) : Status × List DriverOp :=
  if p.wbChanged then
    if p.wbValid then (.noError, [.setWhiteBalanceMode]) else (.badValue, [])
  else (.noError, [])

/-- `ControlThread::processParamAELock`: a value that is neither "true"
nor "false" yields `INVALID_OPERATION`; the `setAeLock` result is
discarded. -/
def processParamAELock (p : ParamInputs) : Status × List DriverOp :=
  if p.aeChanged then
    if p.aeValid then (.noError, [.setAeLock]) else (.invalidOp, [])
  else (.noError, [])

/-- `ControlThread::processParamAWBLock`: as for AE lock. -/
def processParamAWBLock (p : ParamInputs) : Status × List DriverOp :=
  if p.awbChanged then
    if p.awbValid then (.noError, [.setAwbLock]) else (.invalidOp, [])
  else (.noError, [])

/-- `ControlThread::processParamSetMeteringAreas`: with at least one
parsed window the driver's `setMeteringAreas` status is returned. -/
def processParamSetMeteringAreas (p : ParamInputs) : Status × List DriverOp :=
  if p.meteringSet then (p.meteringRes, [.setMeteringAreas])
  else (.noError, [])

/-- One status-guarded step of the `processDynamicParameters` chain
(`if (status == NO_ERROR) { status = processParamX(...); }`): when the
accumulated status is `NO_ERROR`, run the field (appending its driver
calls) and take its status; otherwise keep the accumulated result. -/
def stepIfOk (acc f : Status × List DriverOp) : Status × List DriverOp :=
  if acc.1 = .noError then (f.1, acc.2 ++ f.2) else acc

/-- The white-balance step's guard
(`if (status == NO_ERROR || !mFaceDetectionActive)`). -/
def stepIfWb (faceActive : Bool) (acc f : Status × List DriverOp) :
    Status × List DriverOp :=
  if acc.1 = .noError ∨ faceActive = false then (f.1, acc.2 ++ f.2) else acc

/-- The metering step's guard
(`if (!mFaceDetectionActive && status == NO_ERROR)`). -/
def stepIfMetering (faceActive : Bool) (acc f : Status × List DriverOp) :
    Status × List DriverOp :=
  if faceActive = false ∧ acc.1 = .noError then (f.1, acc.2 ++ f.2) else acc

/-- `ControlThread::processDynamicParameters`: zoom first (its status is
immediately overwritten by the unconditional effect step), then flash,
scene and focus each only while the status is still `NO_ERROR`, then
white balance whenever the status is `NO_ERROR` *or* face detection is
inactive, then AE lock and AWB lock while `NO_ERROR`, then metering
areas when face detection is inactive and the status is `NO_ERROR`. -/
def processDynamicParameters (faceActive : Bool) (p : ParamInputs) :
    Status × List DriverOp :=
  let z : Status × List DriverOp :=
    if p.zoomChanged then (p.zoomRes, [.setZoom]) else (.noError, [])
  let e := processParamEffect p
  let r1 : Status × List DriverOp := (e.1, z.2 ++ e.2)
  let r4 := stepIfOk (stepIfOk (stepIfOk r1 (processParamFlash p))
    (processParamSceneMode p)) (processParamFocusMode p)
  let r5 := stepIfWb faceActive r4 (processParamWhiteBalance p)
  let r7 := stepIfOk (stepIfOk r5 (processParamAELock p))
    (processParamAWBLock p)
  stepIfMetering faceActive r7 (processParamSetMeteringAreas p)

/-- The fixed order in which device updates can be issued. -/
def dynamicParamOrder : List DriverOp :=
  [.setZoom, .setEffect, .setFlashMode, .setSceneMode, .setFocusMode,
   .setWhiteBalanceMode, .setAeLock, .setAwbLock, .setMeteringAreas]

/-- C7 counterexample: with face detection inactive, an invalid new
effect value together with a changed valid white balance: the effect
step fails with `BAD_VALUE`, yet `setWhiteBalanceMode` — a later-order
field — is still applied, and its success overwrites the error, so the
call reports `NO_ERROR` instead of `BAD_VALUE`.  This refutes both the
"stops at the first invalid field" and the "no later-order field is
applied after the failure" parts of the claim. -/
theorem processDynamic_not_first_error :
    processDynamicParameters false
      { zoomChanged := false, zoomRes := .noError,
        effectChanged := true, effectValid := false, effectRes := .noError,
        flashChanged := false, flashValid := true,
        sceneChanged := false, sceneValid := true,
        focusPresent := true, focusValid := true, focusRes := .noError,
        wbChanged := true, wbValid := true,
        aeChanged := false, aeValid := true,
        awbChanged := false, awbValid := true,
        meteringSet := false, meteringRes := .noError } =
      (Status.noError, [DriverOp.setWhiteBalanceMode]) := by
  decide

theorem stepIfOk_sublist {acc f : Status × List DriverOp}
    {l m : List DriverOp} (h1 : acc.2.Sublist l) (h2 : f.2.Sublist m) :
    (stepIfOk acc f).2.Sublist (l ++ m) := by
  unfold stepIfOk
  split
  · exact h1.append h2
  · exact h1.trans (List.sublist_append_left l m)

theorem stepIfWb_sublist {fa : Bool} {acc f : Status × List DriverOp}
    {l m : List DriverOp} (h1 : acc.2.Sublist l) (h2 : f.2.Sublist m) :
    (stepIfWb fa acc f).2.Sublist (l ++ m) := by
  unfold stepIfWb
  split
  · exact h1.append h2
  · exact h1.trans (List.sublist_append_left l m)

theorem stepIfMetering_sublist {fa : Bool} {acc f : Status × List DriverOp}
    {l m : List DriverOp} (h1 : acc.2.Sublist l) (h2 : f.2.Sublist m) :
    (stepIfMetering fa acc f).2.Sublist (l ++ m) := by
  unfold stepIfMetering
  split
  · exact h1.append h2
  · exact h1.trans (List.sublist_append_left l m)

theorem stepIfOk_mem {acc f : Status × List DriverOp} {a : DriverOp}
    (h : a ∈ acc.2) : a ∈ (stepIfOk acc f).2 := by
  unfold stepIfOk
  split
  · exact List.mem_append_left _ h
  · exact h

theorem stepIfMetering_mem {fa : Bool} {acc f : Status × List DriverOp}
    {a : DriverOp} (h : a ∈ acc.2) : a ∈ (stepIfMetering fa acc f).2 := by
  unfold stepIfMetering
  split
  · exact List.mem_append_left _ h
  · exact h

theorem stepIfWb_mem {fa : Bool} {acc f : Status × List DriverOp}
    {a : DriverOp} (h : a ∈ acc.2) : a ∈ (stepIfWb fa acc f).2 := by
  unfold stepIfWb
  split
  · exact List.mem_append_left _ h
  · exact h

theorem stepIfOk_neg {acc f : Status × List DriverOp}
    (h : ¬ acc.1 = .noError) : stepIfOk acc f = acc := by
  simp [stepIfOk, h]

theorem stepIfWb_neg {fa : Bool} {acc f : Status × List DriverOp}
    (h : ¬ (acc.1 = .noError ∨ fa = false)) : stepIfWb fa acc f = acc := by
  simp [stepIfWb, h]

theorem stepIfMetering_neg {fa : Bool} {acc f : Status × List DriverOp}
    (h : ¬ (fa = false ∧ acc.1 = .noError)) :
    stepIfMetering fa acc f = acc := by
  simp [stepIfMetering, h]

theorem zoomTrace_sub (p : ParamInputs) :
    ((if p.zoomChanged then ((p.zoomRes, [DriverOp.setZoom]) :
        Status × List DriverOp) else (.noError, [])).2).Sublist
      [DriverOp.setZoom] := by
  split <;> simp

theorem effectTrace_sub (p : ParamInputs) :
    (processParamEffect p).2.Sublist [DriverOp.setEffect] := by
  unfold processParamEffect; split <;> [(split <;> simp); simp]

theorem flashTrace_sub (p : ParamInputs) :
    (processParamFlash p).2.Sublist [DriverOp.setFlashMode] := by
  unfold processParamFlash; split <;> [(split <;> simp); simp]

theorem sceneTrace_sub (p : ParamInputs) :
    (processParamSceneMode p).2.Sublist [DriverOp.setSceneMode] := by
  unfold processParamSceneMode; split <;> [(split <;> simp); simp]

theorem focusTrace_sub (p : ParamInputs) :
    (processParamFocusMode p).2.Sublist [DriverOp.setFocusMode] := by
  unfold processParamFocusMode; split <;> [(split <;> simp); simp]

theorem wbTrace_sub (p : ParamInputs) :
    (processParamWhiteBalance p).2.Sublist [DriverOp.setWhiteBalanceMode] := by
  unfold processParamWhiteBalance; split <;> [(split <;> simp); simp]

theorem aeTrace_sub (p : ParamInputs) :
    (processParamAELock p).2.Sublist [DriverOp.setAeLock] := by
  unfold processParamAELock; split <;> [(split <;> simp); simp]

theorem awbTrace_sub (p : ParamInputs) :
    (processParamAWBLock p).2.Sublist [DriverOp.setAwbLock] := by
  unfold processParamAWBLock; split <;> [(split <;> simp); simp]

theorem meteringTrace_sub (p : ParamInputs) :
    (processParamSetMeteringAreas p).2.Sublist [DriverOp.setMeteringAreas] := by
  unfold processParamSetMeteringAreas; split <;> simp

/-- C7 (amended): device updates are issued in the fixed order zoom,
effect, flash, scene, focus, white-balance, AE-lock, AWB-lock, metering
areas, but processing does not simply stop at the first invalid field:
an invalid changed effect is reported `BAD_VALUE` by its step and skips
flash, scene and focus; with face detection active such a failure also
skips white balance, AE-lock, AWB-lock and metering and is reported to
the caller; with face detection inactive, white balance is still applied
despite the failure (overwriting the status); a zoom failure never stops
the effect step, whose status overwrites zoom's; and invalid AE-lock or
AWB-lock values are reported `INVALID_OPERATION`, not `BAD_VALUE`. -/
theorem processDynamic_order (faceActive : Bool) (p : ParamInputs) :
    ((processDynamicParameters faceActive p).2).Sublist dynamicParamOrder ∧
    (p.effectChanged = true → p.effectValid = false →
      ((processParamEffect p).1 = Status.badValue ∧
       DriverOp.setFlashMode ∉ (processDynamicParameters faceActive p).2 ∧
       DriverOp.setSceneMode ∉ (processDynamicParameters faceActive p).2 ∧
       DriverOp.setFocusMode ∉ (processDynamicParameters faceActive p).2)) ∧
    (faceActive = true → p.effectChanged = true → p.effectValid = false →
      processDynamicParameters faceActive p =
        (Status.badValue, if p.zoomChanged then [DriverOp.setZoom] else [])) ∧
    (faceActive = false → p.wbChanged = true → p.wbValid = true →
      DriverOp.setWhiteBalanceMode ∈ (processDynamicParameters faceActive p).2) ∧
    (p.aeChanged = true → p.aeValid = false →
      (processParamAELock p).1 = Status.invalidOp) ∧
    (p.awbChanged = true → p.awbValid = false →
      (processParamAWBLock p).1 = Status.invalidOp) ∧
    (p.effectChanged = true → p.effectValid = true →
      DriverOp.setEffect ∈ (processDynamicParameters faceActive p).2) := by
  constructor
  · show (processDynamicParameters faceActive p).2.Sublist
      ((((((((([DriverOp.setZoom] ++ [DriverOp.setEffect]) ++
        [DriverOp.setFlashMode]) ++ [DriverOp.setSceneMode]) ++
        [DriverOp.setFocusMode]) ++ [DriverOp.setWhiteBalanceMode]) ++
        [DriverOp.setAeLock]) ++ [DriverOp.setAwbLock]) ++
        [DriverOp.setMeteringAreas]))
    simp only [processDynamicParameters]
    refine stepIfMetering_sublist (stepIfOk_sublist (stepIfOk_sublist
      (stepIfWb_sublist (stepIfOk_sublist (stepIfOk_sublist (stepIfOk_sublist
        ?_ (flashTrace_sub p)) (sceneTrace_sub p)) (focusTrace_sub p))
      (wbTrace_sub p)) (aeTrace_sub p)) (awbTrace_sub p))
      (meteringTrace_sub p)
    exact (zoomTrace_sub p).append (effectTrace_sub p)
  have heStep : p.effectChanged = true → p.effectValid = false →
      processParamEffect p = (Status.badValue, []) := by
    intro hec hev
    simp [processParamEffect, hec, hev]
  refine ⟨?_, ?_, ?_, ?_, ?_, ?_⟩
  · intro hec hev
    have he1 := heStep hec hev
    have hsub : (processDynamicParameters faceActive p).2.Sublist
        (((([DriverOp.setZoom] ++ [DriverOp.setWhiteBalanceMode]) ++
          [DriverOp.setAeLock]) ++ [DriverOp.setAwbLock]) ++
          [DriverOp.setMeteringAreas]) := by
      simp only [processDynamicParameters, he1, List.append_nil,
        stepIfOk_neg (by simp : ¬ ((Status.badValue,
          (if p.zoomChanged then ((p.zoomRes, [DriverOp.setZoom]) :
            Status × List DriverOp) else (.noError, [])).2) :
          Status × List DriverOp).1 = Status.noError)]
      refine stepIfMetering_sublist (stepIfOk_sublist (stepIfOk_sublist
        (stepIfWb_sublist ?_ (wbTrace_sub p)) (aeTrace_sub p))
        (awbTrace_sub p)) (meteringTrace_sub p)
      simpa using zoomTrace_sub p
    refine ⟨by rw [he1], ?_, ?_, ?_⟩ <;>
      · intro hmem
        have hx := hsub.subset hmem
        simp at hx
  · intro hfa hec hev
    subst hfa
    have he1 := heStep hec hev
    simp only [processDynamicParameters, he1, List.append_nil,
      stepIfOk_neg (by simp : ¬ ((Status.badValue,
        (if p.zoomChanged then ((p.zoomRes, [DriverOp.setZoom]) :
          Status × List DriverOp) else (.noError, [])).2) :
        Status × List DriverOp).1 = Status.noError),
      stepIfWb_neg (by simp : ¬ (((Status.badValue,
        (if p.zoomChanged then ((p.zoomRes, [DriverOp.setZoom]) :
          Status × List DriverOp) else (.noError, [])).2) :
        Status × List DriverOp).1 = Status.noError ∨ true = false)),
      stepIfMetering_neg (by simp : ¬ ((true = false) ∧ ((Status.badValue,
        (if p.zoomChanged then ((p.zoomRes, [DriverOp.setZoom]) :
          Status × List DriverOp) else (.noError, [])).2) :
        Status × List DriverOp).1 = Status.noError))]
    by_cases hzc : p.zoomChanged <;> simp [hzc]
  · intro hfa hwc hwv
    subst hfa
    simp only [processDynamicParameters]
    apply stepIfMetering_mem
    apply stepIfOk_mem
    apply stepIfOk_mem
    rw [stepIfWb, if_pos (Or.inr rfl)]
    apply List.mem_append_right
    simp [processParamWhiteBalance, hwc, hwv]
  · intro h1 h2; simp [processParamAELock, h1, h2]
  · intro h1 h2; simp [processParamAWBLock, h1, h2]
  · intro hec hev
    simp only [processDynamicParameters]
    apply stepIfMetering_mem
    apply stepIfOk_mem
    apply stepIfOk_mem
    apply stepIfWb_mem
    apply stepIfOk_mem
    apply stepIfOk_mem
    apply stepIfOk_mem
    dsimp only
    apply List.mem_append_right
    simp [processParamEffect, hec, hev]


/-- C7 witness: the amended behaviour at the counterexample input (face
detection inactive, invalid effect, valid changed white balance). -/
theorem processDynamic_order_witness :
    (processParamEffect
      { zoomChanged := false, zoomRes := .noError,
        effectChanged := true, effectValid := false, effectRes := .noError,
        flashChanged := false, flashValid := true,
        sceneChanged := false, sceneValid := true,
        focusPresent := true, focusValid := true, focusRes := .noError,
        wbChanged := true, wbValid := true,
        aeChanged := false, aeValid := true,
        awbChanged := false, awbValid := true,
        meteringSet := false, meteringRes := .noError }).1 = Status.badValue :=
  ((processDynamic_order false
      { zoomChanged := false, zoomRes := .noError,
        effectChanged := true, effectValid := false, effectRes := .noError,
        flashChanged := false, flashValid := true,
        sceneChanged := false, sceneValid := true,
        focusPresent := true, focusValid := true, focusRes := .noError,
        wbChanged := true, wbValid := true,
        aeChanged := false, aeValid := true,
        awbChanged := false, awbValid := true,
        meteringSet := false, meteringRes := .noError }).2.1 rfl rfl).1

end CameraHAL
